import Mathlib

/-!
# Feedback widget: store, edit session, delete gate and time rendering

A shallow embedding of `src/App.js` (the state container of the feedback
widget and its handlers) and of the handlers of
`src/components/Feedback/FeedbackItem.jsx` (`handleDeleteButton`,
`formatTime`), followed by the properties proved about them.

JavaScript objects are property lists read by key, so that the object spread
of `updateFeedback` and the two identifier fields the source reads (`id` in
`App.js`, `_id` in `FeedbackItem.jsx`) are modelled as they are written.
Numbers are integers (no floating point value occurs in the handlers).
-/

namespace Feedback

/-- JavaScript values that the handlers store in item fields and compare.
Strict equality `===` on these values is equality: numbers are integers, so
there is no `NaN` among them. -/
inductive Val where
  | undefined : Val
  | null : Val
  | bool (b : Bool) : Val
  | num (n : Int) : Val
  | str (s : String) : Val
  deriving DecidableEq, Repr

/-- An object: its own properties, in creation order. -/
abbrev Obj := List (String × Val)

/-- Does the object own the property `k` (`k in o` for own properties). -/
def Obj.has (o : Obj) (k : String) : Bool :=
  (o.lookup k).isSome

/-- Property read `o.k`: the value stored under `k`, `undefined` when absent. -/
def Obj.get (o : Obj) (k : String) : Val :=
  match o.lookup k with
  | some v => v
  | none => Val.undefined

/-- Property write `o.k = v`: overwrite in place when `k` is owned, else add
the property after the existing ones. -/
def Obj.set : Obj → String → Val → Obj
  | [], k, v => [(k, v)]
  | (k', v') :: rest, k, v =>
    if k' = k then (k', v) :: rest else (k', v') :: Obj.set rest k v

/-- Object spread `{ ...a, ...b }`: a copy of `a` into which every own property
of `b` is written, in order. -/
def Obj.spread (a b : Obj) : Obj :=
  b.foldl (fun acc kv => Obj.set acc kv.1 kv.2) a

/-- The edit session held in `feedbackEdit`. -/
structure FeedbackEdit where
  item : Obj
  edit : Bool
  deriving DecidableEq, Repr

/-- The four `useState` cells of `App`. -/
structure AppState where
  feedback : List Obj
  showDeleteModal : Bool
  itemToDelete : Val
  feedbackEdit : FeedbackEdit
  deriving DecidableEq, Repr

/-- The state of `App` on its first render, for a seed list `FeedbackData`
(the seed module is a parameter: it is imported by `App.js`). -/
def initialState (FeedbackData : List Obj) : AppState :=
  { feedback := FeedbackData
    showDeleteModal := false
    itemToDelete := Val.null
    feedbackEdit := { item := [], edit := false } }

/-- Handler `addFeedbackItem`; `id` is the value returned by `v4()`. -/
def addFeedbackItem (id : Val) (newFeedbackItem : Obj) (s : AppState) : AppState :=
  let newFeedbackItem := Obj.set newFeedbackItem "id" id
  let updatedFeedbackArray := newFeedbackItem :: s.feedback
  { s with feedback := updatedFeedbackArray }

/-- Handler `editFeedback`. -/
def editFeedback (item : Obj) (s : AppState) : AppState :=
  { s with feedbackEdit := { item := item, edit := true } }

/-- Handler `deleteFeedback`. -/
def deleteFeedback (id : Val) (s : AppState) : AppState :=
  { s with showDeleteModal := true, itemToDelete := id }

/-- Handler `updateFeedback`. -/
def updateFeedback (id : Val) (itemUpdate : Obj) (s : AppState) : AppState :=
  { s with feedback :=
      s.feedback.map (fun item =>
        if item.get "id" = id then Obj.spread item itemUpdate else item) }

/-- Handler `handleDeleteConfirmed`. -/
def handleDeleteConfirmed (s : AppState) : AppState :=
  { s with showDeleteModal := false
           feedback := s.feedback.filter (fun item => item.get "id" ≠ s.itemToDelete) }

/-- Handler `handleDeleteCancelled`. -/
def handleDeleteCancelled (s : AppState) : AppState :=
  { s with showDeleteModal := false }

/-- Handler `closeModal`; the event is given by its `target` and
`currentTarget`, two elements of the page named by numbers. -/
def closeModal (target currentTarget : Nat) (s : AppState) : AppState :=
  if target = currentTarget then { s with showDeleteModal := false } else s

/-- Handler `handleDeleteButton` of the row that renders `item`. The row reads
`deleteFeedback` from `FeedbackContext`, whose provider is not among the
sources; it is taken to be the handler `deleteFeedback` of `App`, the one that
`App` hands to the list. -/
def handleDeleteButton (item : Obj) (s : AppState) : AppState :=
  deleteFeedback (item.get "_id") s

/-- Handler `handleEditButton` of the row that renders `item`, with
`editFeedback` of `App` for the same reason. -/
def handleEditButton (item : Obj) (s : AppState) : AppState :=
  editFeedback item s

/-- The call `s.padStart(targetLength, c)` for a one-character pad string. -/
def padStart (s : String) (targetLength : Nat) (c : Char) : String :=
  String.mk (List.replicate (targetLength - s.length) c) ++ s

/-- The expression `hours % 12 || 12`: zero is falsy. -/
def twelveHour (hours : Nat) : Nat :=
  if hours % 12 = 0 then 12 else hours % 12

/-- The expression `hours >= 12 ? 'PM' : 'AM'`. -/
def amOrPm (hours : Nat) : String :=
  if hours ≥ 12 then "PM" else "AM"

/-- Function `formatTime`, on the hours, minutes and seconds that the date
yields and the `is24HourFormat` flag of the row. -/
def formatTime (is24HourFormat : Bool) (hours mins secs : Nat) : String :=
  let minutes := padStart (toString mins) 2 '0'
  let seconds := padStart (toString secs) 2 '0'
  if is24HourFormat then
    padStart (toString hours) 2 '0' ++ ":" ++ minutes ++ ":" ++ seconds
  else
    let amOrPm := amOrPm hours
    let twelveHourFormat := padStart (toString (twelveHour hours)) 2 '0'
    twelveHourFormat ++ ":" ++ minutes ++ ":" ++ seconds ++ " " ++ amOrPm

/-- The value that a field of decimal digits denotes. -/
def fieldValue (cs : List Char) : Nat :=
  cs.foldl (fun acc c => 10 * acc + (c.toNat - '0'.toNat)) 0

/-- The number shown in the hour field (characters 0 and 1) of a rendered time. -/
def hourField (t : String) : Nat :=
  fieldValue (t.data.take 2)

/-- The number shown in the minute field (characters 3 and 4) of a rendered time. -/
def minuteField (t : String) : Nat :=
  fieldValue ((t.data.drop 3).take 2)

/-- The number shown in the second field (characters 6 and 7) of a rendered time. -/
def secondField (t : String) : Nat :=
  fieldValue ((t.data.drop 6).take 2)

/-- The suffix of a 12-hour rendering: what follows the blank at character 8. -/
def suffixField (t : String) : String :=
  String.mk (t.data.drop 9)

/-- The hour of the day that a 12-hour rendering denotes. -/
def hourOfTwelve (t : String) : Nat :=
  hourField t % 12 + (if suffixField t = "PM" then 12 else 0)

/-- The ids of the items of a store, in order. -/
def ids (fb : List Obj) : List Val :=
  fb.map (fun item => item.get "id")

/-- The store invariant of the data model: no two items share an id. -/
def UniqueIds (fb : List Obj) : Prop :=
  (ids fb).Nodup

instance (fb : List Obj) : Decidable (UniqueIds fb) := by
  unfold UniqueIds; infer_instance

/-! ### Sample data -/

/-- A seed item with id 1 and a creation date. -/
def sampleItem : Obj :=
  [("id", Val.num 1), ("text", Val.str "Good"), ("rating", Val.num 7),
   ("date", Val.str "2024-01-01T10:00:00")]

/-- A store of three items with ids 1, 2 and 3. -/
def threeItems : List Obj :=
  [[("id", Val.num 1), ("text", Val.str "Good"), ("rating", Val.num 7)],
   [("id", Val.num 2), ("text", Val.str "Fine"), ("rating", Val.num 6)],
   [("id", Val.num 3), ("text", Val.str "Poor"), ("rating", Val.num 2)]]

/-- A store of two items that share the id 1. -/
def sharedIdItems : List Obj :=
  [[("id", Val.num 1), ("text", Val.str "Good"), ("rating", Val.num 7)],
   [("id", Val.num 1), ("text", Val.str "Fine"), ("rating", Val.num 6)]]

/-- The state after "Great" (rating 9) and then "Bad" (rating 2) were added to
an empty store, with generated ids `a1` and `b2`. -/
def twoAdded : AppState :=
  addFeedbackItem (Val.str "b2") [("text", Val.str "Bad"), ("rating", Val.num 2)]
    (addFeedbackItem (Val.str "a1") [("text", Val.str "Great"), ("rating", Val.num 9)]
      (initialState []))

/-- The item that `twoAdded` lists first. -/
def badItem : Obj :=
  [("text", Val.str "Bad"), ("rating", Val.num 2), ("id", Val.str "b2")]

/-! ## Objects -/

theorem Obj.get_cons (k0 : String) (v0 : Val) (rest : Obj) (k : String) :
    Obj.get ((k0, v0) :: rest) k = if k = k0 then v0 else Obj.get rest k := by
  by_cases h : k = k0
  · subst h
    simp [Obj.get, List.lookup]
  · have e : (k == k0) = false := by simp [h]
    simp [Obj.get, List.lookup, e, h]

theorem Obj.get_nil (k : String) : Obj.get [] k = Val.undefined := rfl

theorem Obj.get_set (o : Obj) (k : String) (v : Val) (k' : String) :
    (Obj.set o k v).get k' = if k' = k then v else o.get k' := by
  induction o with
  | nil =>
    simp only [Obj.set, Obj.get_cons, Obj.get_nil]
  | cons kv rest ih =>
    obtain ⟨k0, v0⟩ := kv
    by_cases h0 : k0 = k
    · subst h0
      simp only [Obj.set, if_true, Obj.get_cons]
      by_cases h : k' = k0
      · simp [h]
      · simp [h]
    · simp only [Obj.set, h0, if_false, Obj.get_cons, ih]
      by_cases h1 : k' = k0
      · subst h1
        simp [h0]
      · simp [h1]

theorem Obj.has_cons (kv : String × Val) (rest : Obj) (k : String) :
    Obj.has (kv :: rest) k = (decide (k = kv.1) || Obj.has rest k) := by
  obtain ⟨k0, v0⟩ := kv
  by_cases h : k = k0
  · subst h
    simp [Obj.has, List.lookup]
  · have e : (k == k0) = false := by simp [h]
    simp [Obj.has, List.lookup, h, e]

theorem Obj.get_spread_of_not_has (b a : Obj) (k : String) (h : b.has k = false) :
    (Obj.spread a b).get k = a.get k := by
  induction b generalizing a with
  | nil => rfl
  | cons kv rest ih =>
    rw [Obj.has_cons] at h
    simp only [Bool.or_eq_false_iff, decide_eq_false_iff_not] at h
    have step : Obj.spread a (kv :: rest) = Obj.spread (Obj.set a kv.1 kv.2) rest := rfl
    rw [step, ih _ h.2, Obj.get_set, if_neg h.1]

theorem Obj.has_eq_false_iff (o : Obj) (k : String) :
    o.has k = false ↔ k ∉ o.map Prod.fst := by
  induction o with
  | nil => simp [Obj.has, List.lookup]
  | cons kv rest ih =>
    rw [Obj.has_cons, Bool.or_eq_false_iff, ih]
    simp [eq_comm]

theorem Obj.get_spread_of_has (b a : Obj) (k : String)
    (hn : (b.map Prod.fst).Nodup) (h : b.has k = true) :
    (Obj.spread a b).get k = b.get k := by
  induction b generalizing a with
  | nil => simp [Obj.has, List.lookup] at h
  | cons kv rest ih =>
    obtain ⟨k0, v0⟩ := kv
    have hn' : k0 ∉ rest.map Prod.fst ∧ (rest.map Prod.fst).Nodup := by
      simpa using hn
    have step : Obj.spread a ((k0, v0) :: rest) = Obj.spread (Obj.set a k0 v0) rest := rfl
    rw [step, Obj.get_cons]
    by_cases hk : k = k0
    · subst hk
      rw [if_pos rfl,
        Obj.get_spread_of_not_has rest _ k ((Obj.has_eq_false_iff rest k).mpr hn'.1),
        Obj.get_set, if_pos rfl]
    · rw [if_neg hk]
      rw [Obj.has_cons] at h
      have h' : Obj.has rest k = true := by simpa [hk] using h
      exact ih _ hn'.2 h'

/-! ## Store lemmas -/

theorem mem_ids_iff (fb : List Obj) (x : Val) :
    x ∈ ids fb ↔ ∃ item ∈ fb, item.get "id" = x := by
  simp [ids]

theorem filter_id_ne_of_absent (fb : List Obj) (x : Val)
    (h : ∀ item ∈ fb, item.get "id" ≠ x) :
    fb.filter (fun item => item.get "id" ≠ x) = fb := by
  apply List.filter_eq_self.mpr
  intro item hi
  simpa using h item hi

theorem filter_id_ne_length_of_present (fb : List Obj) (x : Val)
    (hu : UniqueIds fb) (hx : ∃ item ∈ fb, item.get "id" = x) :
    (fb.filter (fun item => item.get "id" ≠ x)).length + 1 = fb.length := by
  induction fb with
  | nil =>
    obtain ⟨item, hi, _⟩ := hx
    simp at hi
  | cons a rest ih =>
    have hu' : a.get "id" ∉ ids rest ∧ UniqueIds rest := by
      simpa [UniqueIds, ids] using hu
    by_cases ha : a.get "id" = x
    · have habs : ∀ item ∈ rest, item.get "id" ≠ x := by
        intro item hi he
        apply hu'.1
        rw [mem_ids_iff]
        exact ⟨item, hi, he.trans ha.symm⟩
      have e := filter_id_ne_of_absent rest x habs
      have hd : decide (a.get "id" ≠ x) = false := by simp [ha]
      simp only [List.filter_cons, hd, Bool.false_eq_true, if_false, e, List.length_cons]
    · have hx' : ∃ item ∈ rest, item.get "id" = x := by
        obtain ⟨item, hi, he⟩ := hx
        rcases List.mem_cons.mp hi with h | h
        · subst h
          exact absurd he ha
        · exact ⟨item, h, he⟩
      have e := ih hu'.2 hx'
      have hd : decide (a.get "id" ≠ x) = true := by simp [ha]
      simp only [List.filter_cons, hd, if_true, List.length_cons, e]

/-! ## The item store -/

/-- C1: for every store and every new item, `addFeedbackItem` with the
generated id yields a store whose first element is the new item carrying that
id and the text and rating it was given, followed by the previous items
unchanged and in their previous order; the length grows by exactly one. -/
theorem addFeedbackItem_prepends (s : AppState) (id : Val) (newFeedbackItem : Obj) :
    ∃ created : Obj,
      (addFeedbackItem id newFeedbackItem s).feedback = created :: s.feedback ∧
      created.get "id" = id ∧
      created.get "text" = newFeedbackItem.get "text" ∧
      created.get "rating" = newFeedbackItem.get "rating" ∧
      (addFeedbackItem id newFeedbackItem s).feedback.length = s.feedback.length + 1 := by
  refine ⟨Obj.set newFeedbackItem "id" id, rfl, ?_, ?_, ?_, ?_⟩
  · rw [Obj.get_set, if_pos rfl]
  · rw [Obj.get_set, if_neg (by decide)]
  · rw [Obj.get_set, if_neg (by decide)]
  · simp [addFeedbackItem]

/-- C3, as stated, fails: in a store whose two items share the id 1, the id
is present and removing it decreases the item count by two, from 2 to 0; such
a store is reached from the seed with ids 1, 2, 3 by the patch `id := 2` on
id 1, after which removing id 2 decreases the count from 3 to 1. -/
theorem handleDeleteConfirmed_shared_id_removes_two :
    ((∃ item ∈ sharedIdItems, item.get "id" = Val.num 1) ∧
      sharedIdItems.length = 2 ∧
      (handleDeleteConfirmed ⟨sharedIdItems, true, Val.num 1, ⟨[], false⟩⟩).feedback.length
        = 0) ∧
    ((updateFeedback (Val.num 1) [("id", Val.num 2)]
        (initialState threeItems)).feedback.length = 3 ∧
      (handleDeleteConfirmed (deleteFeedback (Val.num 2)
        (updateFeedback (Val.num 1) [("id", Val.num 2)]
          (initialState threeItems)))).feedback.length = 1) := by
  decide

/-- C3, amended: for every store and id, the filter applied by
`handleDeleteConfirmed` for that id decreases the item count by exactly one
when the id was present and the ids of the store are pairwise distinct, and by
zero when the id was absent; in every case no item of the resulting store has
that id. -/
theorem handleDeleteConfirmed_count (fb : List Obj) (modal : Bool) (x : Val)
    (session : FeedbackEdit) :
    (UniqueIds fb → (∃ item ∈ fb, item.get "id" = x) →
      (handleDeleteConfirmed ⟨fb, modal, x, session⟩).feedback.length + 1 = fb.length) ∧
    ((¬ ∃ item ∈ fb, item.get "id" = x) →
      (handleDeleteConfirmed ⟨fb, modal, x, session⟩).feedback.length = fb.length) ∧
    (∀ item ∈ (handleDeleteConfirmed ⟨fb, modal, x, session⟩).feedback,
      item.get "id" ≠ x) := by
  refine ⟨?_, ?_, ?_⟩
  · intro hu hx
    exact filter_id_ne_length_of_present fb x hu hx
  · intro hx
    have habs : ∀ item ∈ fb, item.get "id" ≠ x := fun item hi he => hx ⟨item, hi, he⟩
    show (fb.filter (fun item => item.get "id" ≠ x)).length = fb.length
    rw [filter_id_ne_of_absent fb x habs]
  · intro item hi
    have h : item ∈ fb.filter (fun item => item.get "id" ≠ x) := hi
    simpa using (List.mem_filter.mp h).2

/-- Witness of C3, amended: on a store with ids 1, 2, 3, removing id 2 leaves
two items and removing the absent id 9 leaves three. -/
theorem handleDeleteConfirmed_count_witness :
    UniqueIds threeItems ∧
    (handleDeleteConfirmed ⟨threeItems, true, Val.num 2, ⟨[], false⟩⟩).feedback.length + 1
      = threeItems.length ∧
    (handleDeleteConfirmed ⟨threeItems, true, Val.num 9, ⟨[], false⟩⟩).feedback.length
      = threeItems.length :=
  ⟨by decide,
   (handleDeleteConfirmed_count threeItems true (Val.num 2) ⟨[], false⟩).1 (by decide)
     ⟨threeItems.get ⟨1, by decide⟩, by decide, by decide⟩,
   (handleDeleteConfirmed_count threeItems true (Val.num 9) ⟨[], false⟩).2.1
     (by decide)⟩

/-- C4: for every store and id `x`, `deleteFeedback x` followed by
`handleDeleteCancelled` leaves the store unchanged, and `deleteFeedback x`
followed by `handleDeleteConfirmed` removes exactly the items with id `x`:
every other item is kept, unchanged and in the same relative order. -/
theorem delete_gate_cancel_confirm (s : AppState) (x : Val) :
    (handleDeleteCancelled (deleteFeedback x s)).feedback = s.feedback ∧
    (handleDeleteConfirmed (deleteFeedback x s)).feedback
      = s.feedback.filter (fun item => item.get "id" ≠ x) ∧
    (handleDeleteConfirmed (deleteFeedback x s)).feedback.Sublist s.feedback ∧
    (∀ item, item ∈ (handleDeleteConfirmed (deleteFeedback x s)).feedback ↔
      item ∈ s.feedback ∧ item.get "id" ≠ x) := by
  refine ⟨rfl, rfl, ?_, ?_⟩
  · exact List.filter_sublist _
  · intro item
    show item ∈ s.feedback.filter (fun item => item.get "id" ≠ x) ↔ _
    simp [List.mem_filter]

theorem updateFeedback_getElem? (s : AppState) (id : Val) (itemUpdate : Obj) (i : Nat) :
    (updateFeedback id itemUpdate s).feedback[i]?
      = (s.feedback[i]?).map
          (fun item => if item.get "id" = id then Obj.spread item itemUpdate else item) := by
  simp [updateFeedback]

theorem updateFeedback_field_of_not_has (s : AppState) (id : Val) (itemUpdate : Obj)
    (k : String) (h : itemUpdate.has k = false) :
    (updateFeedback id itemUpdate s).feedback.map (fun item => item.get k)
      = s.feedback.map (fun item => item.get k) := by
  simp only [updateFeedback, List.map_map]
  apply List.map_congr_left
  intro item _
  simp only [Function.comp]
  split
  · exact Obj.get_spread_of_not_has itemUpdate item k h
  · rfl

/-- C2, as stated, fails: a patch that carries `id` and `date` overwrites both
in the matching item. -/
theorem updateFeedback_patch_overwrites_id :
    (updateFeedback (Val.num 1)
        [("id", Val.num 2), ("date", Val.str "2030-06-30T00:00:00")]
        (initialState [sampleItem])).feedback.map
      (fun item => (item.get "id", item.get "date", item.get "text", item.get "rating"))
      = [(Val.num 2, Val.str "2030-06-30T00:00:00", Val.str "Good", Val.num 7)] ∧
    (initialState [sampleItem]).feedback.map
      (fun item => (item.get "id", item.get "date", item.get "text", item.get "rating"))
      = [(Val.num 1, Val.str "2024-01-01T10:00:00", Val.str "Good", Val.num 7)] := by
  decide

/-- C2, amended: for every store, id and patch, `updateFeedback` keeps the
length and order of the store; an item with a different id is unchanged; in
every item each field that the patch does not carry is unchanged, so the ids
are unchanged when the patch carries no `id` and the creation dates when it
carries no `date`; in an item whose id matches, each field that a patch with
distinct keys carries takes the value of the patch; and an id that no item has
leaves the store unchanged. -/
theorem updateFeedback_frame (s : AppState) (id : Val) (itemUpdate : Obj) :
    (updateFeedback id itemUpdate s).feedback.length = s.feedback.length ∧
    (∀ (i : Nat) (item : Obj), s.feedback[i]? = some item →
      ∃ item' : Obj, (updateFeedback id itemUpdate s).feedback[i]? = some item' ∧
        (item.get "id" ≠ id → item' = item) ∧
        (∀ k, itemUpdate.has k = false → item'.get k = item.get k) ∧
        (item.get "id" = id → (itemUpdate.map Prod.fst).Nodup →
          ∀ k, itemUpdate.has k = true → item'.get k = itemUpdate.get k)) ∧
    (itemUpdate.has "id" = false →
      ids (updateFeedback id itemUpdate s).feedback = ids s.feedback) ∧
    (itemUpdate.has "date" = false →
      (updateFeedback id itemUpdate s).feedback.map (fun item => item.get "date")
        = s.feedback.map (fun item => item.get "date")) ∧
    ((∀ item ∈ s.feedback, item.get "id" ≠ id) →
      (updateFeedback id itemUpdate s).feedback = s.feedback) := by
  refine ⟨?_, ?_, ?_, ?_, ?_⟩
  · simp [updateFeedback]
  · intro i item hi
    refine ⟨if item.get "id" = id then Obj.spread item itemUpdate else item, ?_, ?_, ?_, ?_⟩
    · rw [updateFeedback_getElem?, hi]
      rfl
    · intro hne
      rw [if_neg hne]
    · intro k hk
      split
      · exact Obj.get_spread_of_not_has itemUpdate item k hk
      · rfl
    · intro he hn k hk
      rw [if_pos he]
      exact Obj.get_spread_of_has itemUpdate item k hn hk
  · intro h
    exact updateFeedback_field_of_not_has s id itemUpdate "id" h
  · intro h
    exact updateFeedback_field_of_not_has s id itemUpdate "date" h
  · intro h
    show s.feedback.map _ = s.feedback
    conv => rhs; rw [← List.map_id s.feedback]
    apply List.map_congr_left
    intro item hi
    simp [h item hi]

/-- Witness of C2, amended: the patch `text := "Fine"` on id 1 leaves the ids
and the dates of the seed store as they were. -/
theorem updateFeedback_frame_witness :
    ids (updateFeedback (Val.num 1) [("text", Val.str "Fine")]
        (initialState [sampleItem])).feedback = ids (initialState [sampleItem]).feedback ∧
    (updateFeedback (Val.num 1) [("text", Val.str "Fine")]
        (initialState [sampleItem])).feedback.map (fun item => item.get "date")
      = (initialState [sampleItem]).feedback.map (fun item => item.get "date") ∧
    (updateFeedback (Val.num 5) [("text", Val.str "Fine")]
        (initialState [sampleItem])).feedback = (initialState [sampleItem]).feedback :=
  ⟨(updateFeedback_frame (initialState [sampleItem]) (Val.num 1)
      [("text", Val.str "Fine")]).2.2.1 (by decide),
   (updateFeedback_frame (initialState [sampleItem]) (Val.num 1)
      [("text", Val.str "Fine")]).2.2.2.1 (by decide),
   (updateFeedback_frame (initialState [sampleItem]) (Val.num 5)
      [("text", Val.str "Fine")]).2.2.2.2 (by decide)⟩

/-! ## The delete affordance of a row -/

/-- C5, evaluated: in the store that lists "Bad" (id `b2`) before "Great"
(id `a1`), the delete button of the row of "Bad" requests the deletion of
`undefined`, the value of the field `_id` that the item does not have, and
confirming removes nothing: the store still has both items. -/
theorem handleDeleteButton_confirm_removes_nothing :
    twoAdded.feedback.head? = some badItem ∧
    (handleDeleteButton badItem twoAdded).itemToDelete = Val.undefined ∧
    (handleDeleteConfirmed (handleDeleteButton badItem twoAdded)).feedback
      = twoAdded.feedback ∧
    (handleDeleteConfirmed (handleDeleteButton badItem twoAdded)).feedback.length = 2 ∧
    (handleDeleteConfirmed (deleteFeedback (badItem.get "id") twoAdded)).feedback.map
      (fun item => item.get "text") = [Val.str "Great"] := by
  decide

/-! ## Validation -/

/-- C6, as stated, fails: `addFeedbackItem` stores an item with an empty text
and the rating 0. -/
theorem addFeedbackItem_accepts_invalid :
    (addFeedbackItem (Val.str "c3") [("text", Val.str ""), ("rating", Val.num 0)]
        (initialState [])).feedback
      = [[("text", Val.str ""), ("rating", Val.num 0), ("id", Val.str "c3")]] ∧
    (initialState []).feedback = [] := by
  decide

/-- C6, amended: `addFeedbackItem` does not validate and never fails: for every
text and rating, an empty text and a rating outside 1..10 included, it puts the
item that carries them first in the store, which grows by one. -/
theorem addFeedbackItem_no_validation (s : AppState) (id text rating : Val) :
    (addFeedbackItem id [("text", text), ("rating", rating)] s).feedback
      = [("text", text), ("rating", rating), ("id", id)] :: s.feedback ∧
    (addFeedbackItem id [("text", text), ("rating", rating)] s).feedback.length
      = s.feedback.length + 1 := by
  constructor
  · simp [addFeedbackItem, Obj.set]
  · simp [addFeedbackItem]

/-! ## The edit session -/

/-- C7, as stated, fails: after `editFeedback` and the following
`updateFeedback` on the id of the target, the session is still active and still
holds the target. -/
theorem updateFeedback_leaves_session_active :
    (updateFeedback (sampleItem.get "id") [("text", Val.str "Fine")]
        (editFeedback sampleItem (initialState [sampleItem]))).feedbackEdit.edit = true ∧
    (updateFeedback (sampleItem.get "id") [("text", Val.str "Fine")]
        (editFeedback sampleItem (initialState [sampleItem]))).feedbackEdit.item
      = sampleItem ∧
    sampleItem ≠ [] := by
  decide

/-- C7, amended: after `editFeedback item` the edit session has the target
`item` and is active, and a following `updateFeedback` on the id of the target
leaves the session as it is, active with the same target. -/
theorem editFeedback_then_updateFeedback_session (s : AppState) (item itemUpdate : Obj) :
    (editFeedback item s).feedbackEdit = { item := item, edit := true } ∧
    (updateFeedback (item.get "id") itemUpdate (editFeedback item s)).feedbackEdit
      = { item := item, edit := true } :=
  ⟨rfl, rfl⟩

/-! ## The delete gate -/

/-- C8, as stated, fails: after the request to delete id 1 is resolved by
confirm, by cancel or by a click on the overlay, the pending id is still 1,
not the `null` of the idle gate. -/
theorem delete_gate_keeps_pending_id :
    (initialState [sampleItem]).itemToDelete = Val.null ∧
    (handleDeleteConfirmed (deleteFeedback (Val.num 1)
      (initialState [sampleItem]))).itemToDelete = Val.num 1 ∧
    (handleDeleteCancelled (deleteFeedback (Val.num 1)
      (initialState [sampleItem]))).itemToDelete = Val.num 1 ∧
    (closeModal 0 0 (deleteFeedback (Val.num 1)
      (initialState [sampleItem]))).itemToDelete = Val.num 1 := by
  decide

/-- C8, amended: after the request to delete `x` is resolved, by confirm, by
cancel, or by a click whose target is the overlay itself, the prompt is not
visible and the pending id is still `x`. -/
theorem delete_gate_resolved (s : AppState) (x : Val) (overlay : Nat) :
    ((handleDeleteConfirmed (deleteFeedback x s)).showDeleteModal = false ∧
      (handleDeleteConfirmed (deleteFeedback x s)).itemToDelete = x) ∧
    ((handleDeleteCancelled (deleteFeedback x s)).showDeleteModal = false ∧
      (handleDeleteCancelled (deleteFeedback x s)).itemToDelete = x) ∧
    ((closeModal overlay overlay (deleteFeedback x s)).showDeleteModal = false ∧
      (closeModal overlay overlay (deleteFeedback x s)).itemToDelete = x) := by
  refine ⟨⟨rfl, rfl⟩, ⟨rfl, rfl⟩, ?_, ?_⟩
  · simp [closeModal]
  · simp [closeModal, deleteFeedback]

/-! ## The store invariant -/

/-- C9, as stated, fails: the ids 1, 2, 3 are pairwise distinct, and
`updateFeedback` with the patch `id := 2` on id 1 yields two items with id 2. -/
theorem updateFeedback_breaks_uniqueIds :
    UniqueIds (initialState threeItems).feedback ∧
    ¬ UniqueIds (updateFeedback (Val.num 1) [("id", Val.num 2)]
        (initialState threeItems)).feedback := by
  decide

/-- C9, amended: on a store whose ids are pairwise distinct, the ids stay
pairwise distinct after `addFeedbackItem` with an id that no item has, after
`updateFeedback` with any patch that carries no `id`, and after the removal
done by `handleDeleteConfirmed`. -/
theorem uniqueIds_preserved (s : AppState) (hu : UniqueIds s.feedback) :
    (∀ (id : Val) (newFeedbackItem : Obj), id ∉ ids s.feedback →
      UniqueIds (addFeedbackItem id newFeedbackItem s).feedback) ∧
    (∀ (id : Val) (itemUpdate : Obj), itemUpdate.has "id" = false →
      UniqueIds (updateFeedback id itemUpdate s).feedback) ∧
    UniqueIds (handleDeleteConfirmed s).feedback := by
  refine ⟨?_, ?_, ?_⟩
  · intro id newFeedbackItem hfresh
    show (ids (Obj.set newFeedbackItem "id" id :: s.feedback)).Nodup
    have e : ids (Obj.set newFeedbackItem "id" id :: s.feedback) = id :: ids s.feedback := by
      simp [ids, Obj.get_set]
    rw [e]
    exact List.nodup_cons.mpr ⟨hfresh, hu⟩
  · intro id itemUpdate h
    show (ids (updateFeedback id itemUpdate s).feedback).Nodup
    rw [show ids (updateFeedback id itemUpdate s).feedback = ids s.feedback from
      updateFeedback_field_of_not_has s id itemUpdate "id" h]
    exact hu
  · show (ids (s.feedback.filter (fun item => item.get "id" ≠ s.itemToDelete))).Nodup
    exact List.Nodup.sublist (List.Sublist.map _ (List.filter_sublist _)) hu

/-- Witness of C9, amended, on the store with ids 1, 2, 3: adding with the
id 4, patching the text of id 1 and removing id 2 keep the ids distinct. -/
theorem uniqueIds_preserved_witness :
    UniqueIds (initialState threeItems).feedback ∧
    UniqueIds (addFeedbackItem (Val.num 4) [("text", Val.str "New"), ("rating", Val.num 9)]
      (initialState threeItems)).feedback ∧
    UniqueIds (updateFeedback (Val.num 1) [("text", Val.str "Better")]
      (initialState threeItems)).feedback ∧
    UniqueIds (handleDeleteConfirmed
      (deleteFeedback (Val.num 2) (initialState threeItems))).feedback :=
  ⟨by decide,
   (uniqueIds_preserved (initialState threeItems) (by decide)).1 (Val.num 4)
     [("text", Val.str "New"), ("rating", Val.num 9)] (by decide),
   (uniqueIds_preserved (initialState threeItems) (by decide)).2.1 (Val.num 1)
     [("text", Val.str "Better")] (by decide),
   (uniqueIds_preserved (deleteFeedback (Val.num 2) (initialState threeItems))
     (by decide)).2.2⟩

/-! ## Time rendering -/

theorem padStart_two_data : ∀ n < 60, (padStart (toString n) 2 '0').data
    = [Char.ofNat (48 + n / 10), Char.ofNat (48 + n % 10)] := by
  decide

theorem fieldValue_two : ∀ n < 60,
    fieldValue [Char.ofNat (48 + n / 10), Char.ofNat (48 + n % 10)] = n := by
  decide

theorem twelveHour_bounds : ∀ hours < 24,
    1 ≤ twelveHour hours ∧ twelveHour hours ≤ 12 ∧
    (amOrPm hours = "PM" ↔ 12 ≤ hours) ∧
    hours = twelveHour hours % 12 + (if amOrPm hours = "PM" then 12 else 0) := by
  decide

theorem amOrPm_data (hours : Nat) : String.mk (amOrPm hours).data = amOrPm hours := rfl

/-- C10: for every hour in 0..23 and minutes and seconds in 0..59, the 12-hour
rendering of `formatTime` denotes the same time as the 24-hour rendering: the
hour it shows is `hours % 12`, shown as 12 when that is 0, and lies in 1..12;
the suffix is PM exactly when `hours ≥ 12`; the minute and second fields are
the same two-digit fields as in the 24-hour rendering; and `hours` is the hour
shown modulo 12, plus 12 when the suffix is PM. -/
theorem formatTime_twelve_hour_same_time (hours mins secs : Nat)
    (hh : hours < 24) (hm : mins < 60) (hs : secs < 60) :
    hourField (formatTime false hours mins secs) = twelveHour hours ∧
    (1 ≤ twelveHour hours ∧ twelveHour hours ≤ 12) ∧
    suffixField (formatTime false hours mins secs) = amOrPm hours ∧
    (amOrPm hours = "PM" ↔ 12 ≤ hours) ∧
    ((formatTime false hours mins secs).data.drop 2).take 6
      = (formatTime true hours mins secs).data.drop 2 ∧
    (minuteField (formatTime false hours mins secs) = mins ∧
      minuteField (formatTime true hours mins secs) = mins) ∧
    (secondField (formatTime false hours mins secs) = secs ∧
      secondField (formatTime true hours mins secs) = secs) ∧
    hourField (formatTime true hours mins secs) = hours ∧
    hourOfTwelve (formatTime false hours mins secs) = hours := by
  have th : twelveHour hours < 60 := by
    have := (twelveHour_bounds hours hh).2.1
    omega
  have h60 : hours < 60 := by omega
  have b := twelveHour_bounds hours hh
  have d12 : (formatTime false hours mins secs).data
      = [Char.ofNat (48 + twelveHour hours / 10), Char.ofNat (48 + twelveHour hours % 10), ':',
         Char.ofNat (48 + mins / 10), Char.ofNat (48 + mins % 10), ':',
         Char.ofNat (48 + secs / 10), Char.ofNat (48 + secs % 10), ' ']
        ++ (amOrPm hours).data := by
    simp only [formatTime, Bool.false_eq_true, if_false, String.data_append,
      padStart_two_data _ th, padStart_two_data mins hm, padStart_two_data secs hs]
    rfl
  have d24 : (formatTime true hours mins secs).data
      = [Char.ofNat (48 + hours / 10), Char.ofNat (48 + hours % 10), ':',
         Char.ofNat (48 + mins / 10), Char.ofNat (48 + mins % 10), ':',
         Char.ofNat (48 + secs / 10), Char.ofNat (48 + secs % 10)] := by
    simp only [formatTime, if_true, String.data_append,
      padStart_two_data _ h60, padStart_two_data mins hm, padStart_two_data secs hs]
    rfl
  have hf : hourField (formatTime false hours mins secs) = twelveHour hours := by
    simp only [hourField, d12, List.cons_append, List.take_succ_cons, List.take_zero]
    exact fieldValue_two _ th
  have sf : suffixField (formatTime false hours mins secs) = amOrPm hours := by
    simp only [suffixField, d12, List.cons_append, List.nil_append, List.drop_succ_cons,
      List.drop_zero]
  refine ⟨hf, ⟨b.1, b.2.1⟩, sf, b.2.2.1, ?_, ⟨?_, ?_⟩, ⟨?_, ?_⟩, ?_, ?_⟩
  · simp only [d12, d24, List.cons_append, List.nil_append, List.drop_succ_cons,
      List.drop_zero, List.take_succ_cons, List.take_zero]
  · simp only [minuteField, d12, List.cons_append, List.drop_succ_cons, List.drop_zero,
      List.take_succ_cons, List.take_zero]
    exact fieldValue_two _ hm
  · simp only [minuteField, d24, List.drop_succ_cons, List.drop_zero,
      List.take_succ_cons, List.take_zero]
    exact fieldValue_two _ hm
  · simp only [secondField, d12, List.cons_append, List.drop_succ_cons, List.drop_zero,
      List.take_succ_cons, List.take_zero]
    exact fieldValue_two _ hs
  · simp only [secondField, d24, List.drop_succ_cons, List.drop_zero,
      List.take_succ_cons, List.take_zero, List.take_nil]
    exact fieldValue_two _ hs
  · simp only [hourField, d24, List.take_succ_cons, List.take_zero]
    exact fieldValue_two _ h60
  · unfold hourOfTwelve
    rw [hf, sf]
    exact b.2.2.2.symm

/-- Witness of C10 at 13:05:09, rendered "01:05:09 PM" and "13:05:09". -/
theorem formatTime_twelve_hour_same_time_witness :
    formatTime false 13 5 9 = "01:05:09 PM" ∧ formatTime true 13 5 9 = "13:05:09" ∧
    hourField (formatTime false 13 5 9) = twelveHour 13 ∧
    hourOfTwelve (formatTime false 13 5 9) = 13 :=
  ⟨by decide, by decide,
   (formatTime_twelve_hour_same_time 13 5 9 (by decide) (by decide) (by decide)).1,
   (formatTime_twelve_hour_same_time 13 5 9 (by decide) (by decide) (by decide)).2.2.2.2.2.2.2.2⟩

end Feedback
